import Mathlib

/-!
Shallow embedding of `gemini_api.py`: this file models the single Python module of the repository
(`src/gemini_api.py`): a two-stage pipeline with an intake endpoint
(`api_endpoint`) that validates a GCS video URL and enqueues a Cloud Task,
and a worker endpoint (`api_call_worker`) that invokes the Gemini model via
`call_gemini`.

External services (Cloud Tasks RPCs, the Vertex AI generate call, the
`os.environ` lookups, the YAML config load) are modelled as an explicit
environment record `SysEnv` of result-valued functions; a raised Python
exception is an `Except.error` carrying `str(e)`.  JSON request bodies are
modelled by the inductive `Json`, together with Python truthiness, the
`in` operator and subscripting, so that the exact branching of the two
Flask handlers is reproduced.  Each embedded function also returns the
list of external calls it performed (`Effect`), which lets theorems speak
about which external services were contacted on which paths.

Error-message texts follow the Python sources; messages produced by the
Python runtime itself (TypeError and similar) are reproduced without the
quote characters of the CPython wording, which no theorem depends on.
-/

namespace GeminiApi

/-- JSON values as delivered by Flask `request.get_json()`. -/
inductive Json where
  | null
  | bool (b : Bool)
  | num (n : Int)
  | str (s : String)
  | arr (elems : List Json)
  | obj (entries : List (String × Json))

/-- Python truthiness of a JSON value (`if request_json ...`). -/
def truthy : Json → Bool
  | .null => false
  | .bool b => b
  | .num n => n != 0
  | .str s => s != ""
  | .arr elems => !elems.isEmpty
  | .obj entries => !entries.isEmpty

/-- Does `needle` occur at the start of `haystack`? -/
def charsStartWith : List Char → List Char → Bool
  | [], _ => true
  | _ :: _, [] => false
  | a :: as, b :: bs => a == b && charsStartWith as bs

/-- Does `needle` occur anywhere inside `haystack`? -/
def charsContain (needle : List Char) : List Char → Bool
  | [] => charsStartWith needle []
  | b :: bs => charsStartWith needle (b :: bs) || charsContain needle bs

/-- Boolean substring test (Python `needle in haystack` on strings). -/
def strContains (needle haystack : String) : Bool :=
  charsContain needle.data haystack.data

/-- Python `s.startswith(pre)`: exact character-wise prefix match. -/
def pyStartsWith (s pre : String) : Bool :=
  charsStartWith pre.data s.data

/-- Python `s.endswith(suf)`: exact character-wise suffix match. -/
def pyEndsWith (s suf : String) : Bool :=
  charsStartWith suf.data.reverse s.data.reverse

/-- Python `key in value`: key membership for dicts, element equality for
lists, substring for strings; a TypeError for non-iterable values. -/
def pyContains (key : String) : Json → Except String Bool
  | .obj entries => .ok (entries.lookup key).isSome
  | .arr elems => .ok (elems.any fun x => match x with
      | .str s => s == key
      | _ => false)
  | .str s => .ok (strContains key s)
  | .num _ => .error "argument of type int is not iterable"
  | .bool _ => .error "argument of type bool is not iterable"
  | .null => .error "argument of type NoneType is not iterable"

/-- Python `value[key]` with a string key: dict lookup; a TypeError for
lists and strings, unsubscriptable error otherwise. -/
def pySubscript (key : String) : Json → Except String Json
  | .obj entries => match entries.lookup key with
      | some v => .ok v
      | none => .error ("KeyError: " ++ key)
  | .arr _ => .error "list indices must be integers or slices, not str"
  | .str _ => .error "string indices must be integers"
  | .num _ => .error "int object is not subscriptable"
  | .bool _ => .error "bool object is not subscriptable"
  | .null => .error "NoneType object is not subscriptable"

mutual

/-- Python `repr` of a JSON value (quote characters omitted). -/
def pyRepr : Json → String
  | .null => "None"
  | .bool true => "True"
  | .bool false => "False"
  | .num n => toString n
  | .str s => s
  | .arr elems => "[" ++ pyReprList elems ++ "]"
  | .obj entries => "\x7b" ++ pyReprEntries entries ++ "\x7d"

/-- Comma-separated `repr` of list elements. -/
def pyReprList : List Json → String
  | [] => ""
  | [x] => pyRepr x
  | x :: xs => pyRepr x ++ ", " ++ pyReprList xs

/-- Comma-separated `repr` of dict entries. -/
def pyReprEntries : List (String × Json) → String
  | [] => ""
  | [(k, v)] => k ++ ": " ++ pyRepr v
  | (k, v) :: kvs => k ++ ": " ++ pyRepr v ++ ", " ++ pyReprEntries kvs

end

/-- Python `str()` of a JSON value, as used by the f-strings of the module. -/
def pyStr : Json → String
  | .str s => s
  | j => pyRepr j

/-- Python `str()` of an optional string (`None` renders as `"None"`). -/
def pyStrOpt : Option String → String
  | some s => s
  | none => "None"

/-- The resource name built by `client.queue_path(PROJECT_ID, LOCATION,
queue_id)`: the three components that identify the queue. -/
structure QueuePath where
  project : Option String
  location : String
  queue : Option String

/-- The keys the module reads from `queue_config.yaml` via
`QUEUE_CONFIG.get`; a key absent from the loaded dict is `none`. -/
structure QueueConfig where
  queue_id : Option String
  rate_limits : Option Json
  retry_config : Option Json

/-- The empty dict `{}` seen through the three keys the module reads. -/
def emptyQueueConfig : QueueConfig := ⟨none, none, none⟩

/-- The request `call_gemini` sends to the model: every argument of the
`GenerationConfig`, `Part.from_uri`, `GenerativeModel` and
`generate_content` calls. -/
structure GeminiRequest where
  model_name : String
  system_instruction : String
  media_mime_type : String
  media_uri : Json
  prompt : String
  temperature : Rat
  max_output_tokens : Nat
  response_mime_type : String
  response_schema : Json

/-- An abstract successful response object from `generate_content`. -/
structure GeminiResponse where
  payload : Json

/-- The queue record passed to `client.create_queue`. -/
structure QueueRec where
  name : QueuePath
  rate_limits : Json
  retry_config : Json

/-- The task record passed to `client.create_task`. -/
structure TaskRec where
  http_method : String
  url : String
  headers : List (String × String)
  body : String

/-- The external world of the module: `os.environ` and the outcome of each
remote call.  An `Except.error` is a raised exception carrying `str(e)`. -/
structure SysEnv where
  projectIdVar : Option String
  locationVar : Option String
  getQueueRpc : QueuePath → Except String Unit
  createQueueRpc : QueueRec → Except String Unit
  createTaskRpc : QueuePath → TaskRec → Except String String
  generateRpc : GeminiRequest → Except String GeminiResponse

/-- Module constant `PROJECT_ID = os.environ.get("PROJECT_ID")`. -/
def PROJECT_ID (env : SysEnv) : Option String := env.projectIdVar

/-- Module constant `LOCATION = os.environ.get("LOCATION", "us-central1")`. -/
def LOCATION (env : SysEnv) : String := env.locationVar.getD "us-central1"

/-- Module constant `QUEUE_ID = "api-call-queue"`. -/
def QUEUE_ID : String := "api-call-queue"

/-- Module constant `FUNCTION_NAME = "api-call-worker"`. -/
def FUNCTION_NAME : String := "api-call-worker"

/-- Embedding of `_load_queue_config`: returns the parsed YAML dict, or `{}` when
loading raises any exception. -/
def load_queue_config (loadResult : Except String QueueConfig) : QueueConfig :=
  match loadResult with
  | .ok config => config
  | .error _ => emptyQueueConfig

/-- One external call performed by the module. -/
inductive Effect where
  | getQueue (path : QueuePath)
  | createQueueCall (queue : QueueRec)
  | createTask (parent : QueuePath) (url : String)
  | geminiCall (video_url : Json)

/-- The structured response schema literal of `call_gemini`. -/
def responseSchema : Json :=
  .obj [("type", .str "object"),
        ("properties", .obj [("IAB_Category", .obj [("type", .str "STRING")])]),
        ("required", .arr [.str "IAB_Category"])]

/-- The fixed system instruction of `call_gemini`. -/
def systemInstructionText : String :=
  "You categorize a video ad into IAB categories. You return the name of only one IAB category which is the most relevant one"

/-- The inference request `call_gemini` builds for a given video URL. -/
def buildGeminiRequest (video_url : Json) : GeminiRequest :=
  { model_name := "gemini-1.5-pro-002"
  , system_instruction := systemInstructionText
  , media_mime_type := "video/mp4"
  , media_uri := video_url
  , prompt := "Please classify"
  , temperature := 0
  , max_output_tokens := 8192
  , response_mime_type := "application/json"
  , response_schema := responseSchema }

/-- What `call_gemini` returns: the response object, or (after catching
any exception) an error string. -/
inductive GeminiResult where
  | response (r : GeminiResponse)
  | errorString (s : String)

/-- Embedding of `call_gemini(video_url)`: builds the inference request; any exception
in the `try` block is caught and turned into the error string embedding
the URL and the error. -/
def call_gemini (env : SysEnv) (video_url : Json) : GeminiResult :=
  match env.generateRpc (buildGeminiRequest video_url) with
  | .ok responses => .response responses
  | .error e =>
      .errorString ("Gemini call failed for URL: " ++ pyStr video_url ++ ". Error: " ++ e)

/-- Embedding of `client.queue_path(PROJECT_ID, LOCATION, qid)`. -/
def queue_path (env : SysEnv) (qid : Option String) : QueuePath :=
  ⟨PROJECT_ID env, LOCATION env, qid⟩

/-- The worker function URL
`f"https://{LOCATION}-{PROJECT_ID}.cloudfunctions.net/{FUNCTION_NAME}"`. -/
def workerFunctionUrl (env : SysEnv) : String :=
  "https://" ++ LOCATION env ++ "-" ++ pyStrOpt (PROJECT_ID env) ++
    ".cloudfunctions.net/" ++ FUNCTION_NAME

/-- Embedding of `json.dumps` of the task payload dict. -/
def taskBody (url : String) : String :=
  "\x7b\"url\": \"" ++ url ++ "\"\x7d"

/-- The task dict literal of `create_cloud_task`. -/
def buildTask (env : SysEnv) (url : String) : TaskRec :=
  { http_method := "POST"
  , url := workerFunctionUrl env
  , headers := [("Content-type", "application/json")]
  , body := taskBody url }

/-- Embedding of `create_cloud_task(url)`: builds the queue path from
`QUEUE_CONFIG.get("queue_id")` and submits the task; returns the external
calls made and the `create_task` outcome (`response.name` on success). -/
def create_cloud_task (env : SysEnv) (cfg : QueueConfig) (url : String) :
    List Effect × Except String String :=
  let qpath := queue_path env cfg.queue_id
  ([Effect.createTask qpath url], env.createTaskRpc qpath (buildTask env url))

/-- The queue dict literal of `create_queue`: rate limits and retry config
from `QUEUE_CONFIG` with `{}` as default. -/
def queueRecOf (env : SysEnv) (cfg : QueueConfig) : QueueRec :=
  { name := queue_path env cfg.queue_id
  , rate_limits := cfg.rate_limits.getD (Json.obj [])
  , retry_config := cfg.retry_config.getD (Json.obj []) }

/-- Embedding of `create_queue()`: looks the queue up; on a lookup failure whose text
contains `NOT_FOUND` it attempts creation (an exception from the creation
call propagates); any other lookup failure is logged and swallowed.
Returns the external calls made and the uncaught exception, if any. -/
def create_queue (env : SysEnv) (cfg : QueueConfig) :
    List Effect × Option String :=
  let qpath := queue_path env cfg.queue_id
  match env.getQueueRpc qpath with
  | .ok _ => ([Effect.getQueue qpath], none)
  | .error e =>
      if strContains "NOT_FOUND" e then
        match env.createQueueRpc (queueRecOf env cfg) with
        | .ok _ => ([Effect.getQueue qpath, Effect.createQueueCall (queueRecOf env cfg)], none)
        | .error e2 =>
            ([Effect.getQueue qpath, Effect.createQueueCall (queueRecOf env cfg)], some e2)
      else
        ([Effect.getQueue qpath], none)

/-- The Python type name of a JSON value, for runtime error messages. -/
def pyTypeName : Json → String
  | .null => "NoneType"
  | .bool _ => "bool"
  | .num _ => "int"
  | .str _ => "str"
  | .arr _ => "list"
  | .obj _ => "dict"

/-- A Flask request, by the outcome of `request.get_json()`: a raised
exception, `None`, or a JSON document. -/
structure Request where
  getJson : Except String (Option Json)

/-- An intake response: body text, HTTP status, external calls made. -/
structure EndpointResult where
  body : String
  status : Nat
  effects : List Effect

/-- The task-creation step of `api_endpoint` (line
`task_name = create_cloud_task(url)` onward): returns 202 with the task
name, or 500 when the enqueue call raises. -/
def endpoint_enqueue (env : SysEnv) (cfg : QueueConfig) (eff0 : List Effect)
    (url : String) : EndpointResult :=
  match (create_cloud_task env cfg url).2 with
  | .ok task_name =>
      ⟨"URL queued for processing. Task name: " ++ task_name, 202,
        eff0 ++ (create_cloud_task env cfg url).1⟩
  | .error e => ⟨"Error: " ++ e, 500, eff0 ++ (create_cloud_task env cfg url).1⟩

/-- The URL-validation step of `api_endpoint`: the two checks, in order
(`url.startswith("gs://")` then `url.endswith(".mp4")`); a non-string
value raises an AttributeError at `.startswith`, caught as 500. -/
def endpoint_validate (env : SysEnv) (cfg : QueueConfig) (eff0 : List Effect) :
    Json → EndpointResult
  | .str url =>
      if !pyStartsWith url "gs://" then
        ⟨"Error: URL must be a GCS path (start with gs://).", 400, eff0⟩
      else if !pyEndsWith url ".mp4" then
        ⟨"Error: URL must point to an MP4 video file.", 400, eff0⟩
      else endpoint_enqueue env cfg eff0 url
  | other =>
      ⟨"Error: " ++ pyTypeName other ++ " object has no attribute startswith",
        500, eff0⟩

/-- The body-inspection step of `api_endpoint` on a truthy body:
`"url" in request_json`, then `request_json["url"]`; either operation may
raise (caught as 500). -/
def endpoint_member (env : SysEnv) (cfg : QueueConfig) (eff0 : List Effect)
    (doc : Json) : EndpointResult :=
  match pyContains "url" doc with
  | .error e => ⟨"Error: " ++ e, 500, eff0⟩
  | .ok false => ⟨"Error: No URL provided in request body.", 400, eff0⟩
  | .ok true =>
      match pySubscript "url" doc with
      | .error e => ⟨"Error: " ++ e, 500, eff0⟩
      | .ok urlVal => endpoint_validate env cfg eff0 urlVal

/-- The `if request_json and "url" in request_json` test of
`api_endpoint`: a `None` or falsy body short-circuits to the 400 branch. -/
def endpoint_body (env : SysEnv) (cfg : QueueConfig) (eff0 : List Effect) :
    Option Json → EndpointResult
  | none => ⟨"Error: No URL provided in request body.", 400, eff0⟩
  | some doc =>
      if truthy doc then endpoint_member env cfg eff0 doc
      else ⟨"Error: No URL provided in request body.", 400, eff0⟩

/-- Embedding of `api_endpoint(request)`: ensures the queue, parses the body, validates
the URL (GCS scheme then `.mp4` extension) and enqueues the task; any
uncaught exception yields `f"Error: {e}"` with status 500.  The stages
`endpoint_body`, `endpoint_member`, `endpoint_validate` and
`endpoint_enqueue` spell out the successive statements of the single
Python function. -/
def api_endpoint (env : SysEnv) (cfg : QueueConfig) (request : Request) :
    EndpointResult :=
  match (create_queue env cfg).2 with
  | some e => ⟨"Error: " ++ e, 500, (create_queue env cfg).1⟩
  | none =>
    match request.getJson with
    | .error e => ⟨"Error: " ++ e, 500, (create_queue env cfg).1⟩
    | .ok request_json => endpoint_body env cfg (create_queue env cfg).1 request_json

/-- A worker response body: the value returned by `call_gemini`, or a
plain message string. -/
inductive WorkerBody where
  | result (r : GeminiResult)
  | text (s : String)

/-- A worker response: body, HTTP status, external calls made. -/
structure WorkerResult where
  body : WorkerBody
  status : Nat
  effects : List Effect

/-- The body-inspection step of `api_call_worker` on a truthy body:
`"url" in request_json`, then `request_json["url"]`; either operation may
raise, caught with `video_url` still `None`, hence the 500 message always
echoes `None`. -/
def worker_doc (env : SysEnv) (doc : Json) : WorkerResult :=
  match pyContains "url" doc with
  | .error e => ⟨.text ("Non-Gemini Error for URL: None. Error: " ++ e), 500, []⟩
  | .ok false => ⟨.text "Error: No URL provided in request body.", 400, []⟩
  | .ok true =>
      match pySubscript "url" doc with
      | .error e => ⟨.text ("Non-Gemini Error for URL: None. Error: " ++ e), 500, []⟩
      | .ok video_url =>
          ⟨.result (call_gemini env video_url), 200, [Effect.geminiCall video_url]⟩

/-- The `if request_json and "url" in request_json` test of
`api_call_worker`. -/
def worker_json (env : SysEnv) : Option Json → WorkerResult
  | none => ⟨.text "Error: No URL provided in request body.", 400, []⟩
  | some doc =>
      if truthy doc then worker_doc env doc
      else ⟨.text "Error: No URL provided in request body.", 400, []⟩

/-- Embedding of `api_call_worker(request)`: extracts the URL and calls `call_gemini`;
an uncaught exception (all of which occur while `video_url` is still
`None`) yields the `Non-Gemini Error` message with status 500.  The
stages `worker_json` and `worker_doc` spell out the successive statements
of the single Python function. -/
def api_call_worker (env : SysEnv) (request : Request) : WorkerResult :=
  match request.getJson with
  | .error e => ⟨.text ("Non-Gemini Error for URL: None. Error: " ++ e), 500, []⟩
  | .ok request_json => worker_json env request_json

/-! ## Concrete fixtures used by witnesses and counterexamples -/

/-- An environment where every external call succeeds. -/
def okEnv : SysEnv :=
  { projectIdVar := some "demo-project"
  , locationVar := none
  , getQueueRpc := fun _ => .ok ()
  , createQueueRpc := fun _ => .ok ()
  , createTaskRpc := fun _ _ => .ok "projects/demo-project/locations/us-central1/queues/api-call-queue/tasks/42"
  , generateRpc := fun _ => .ok ⟨Json.obj [("IAB_Category", Json.str "Automotive")]⟩ }

/-- Variant of `okEnv` with a queue lookup that fails with a permission error. -/
def permDeniedEnv : SysEnv :=
  { okEnv with getQueueRpc := fun _ => .error "PERMISSION_DENIED: caller lacks permission" }

/-- Variant of `okEnv` with a not-found lookup and a creation call that loses the
creation race (the queue already exists). -/
def raceEnv : SysEnv :=
  { okEnv with
      getQueueRpc := fun _ => .error "NOT_FOUND: queue does not exist"
    , createQueueRpc := fun _ => .error "ALREADY_EXISTS: queue exists" }

/-- Variant of `okEnv` with an unreachable inference service. -/
def geminiDownEnv : SysEnv :=
  { okEnv with generateRpc := fun _ => .error "service unreachable" }

/-- A loaded `queue_config.yaml` naming the queue. -/
def sampleCfg : QueueConfig := ⟨some "api-call-queue", none, none⟩

/-- A request whose body is `{"url": "gs://bucket/ad.mp4"}`. -/
def validReq : Request := ⟨.ok (some (.obj [("url", .str "gs://bucket/ad.mp4")]))⟩

/-- A request whose body is `{"url": "http://bucket/ad.mp4"}`. -/
def invalidSchemeReq : Request := ⟨.ok (some (.obj [("url", .str "http://bucket/ad.mp4")]))⟩

/-- A request whose body is the JSON array `["url"]`. -/
def arrayBodyReq : Request := ⟨.ok (some (.arr [.str "url"]))⟩

/-! ## Helper lemmas -/

/-- The effect list of `create_queue` always starts with the queue lookup. -/
theorem create_queue_effects_shape (env : SysEnv) (cfg : QueueConfig) :
    ∃ rest, (create_queue env cfg).1 =
      Effect.getQueue (queue_path env cfg.queue_id) :: rest := by
  unfold create_queue
  cases h : env.getQueueRpc (queue_path env cfg.queue_id) <;> simp [h]
  split
  · cases h2 : env.createQueueRpc (queueRecOf env cfg) <;> simp [h2]
  · simp

/-- The function `create_queue` never creates a task. -/
theorem createTask_not_in_create_queue (env : SysEnv) (cfg : QueueConfig)
    (p : QueuePath) (u : String) :
    Effect.createTask p u ∉ (create_queue env cfg).1 := by
  unfold create_queue
  cases h : env.getQueueRpc (queue_path env cfg.queue_id) <;> simp [h]
  split
  · cases h2 : env.createQueueRpc (queueRecOf env cfg) <;> simp [h2]
  · simp

/-- A successful lookup in a list forces the list to be nonempty. -/
theorem lookup_ne_nil {α β : Type} [BEq α] {k : α} {v : β} {l : List (α × β)}
    (h : l.lookup k = some v) : l ≠ [] := by
  intro hnil
  subst hnil
  simp [List.lookup] at h

/-- Unfolding of `api_call_worker` when `get_json` raises. -/
theorem api_call_worker_err (env : SysEnv) (request : Request) (e : String)
    (hg : request.getJson = .error e) :
    api_call_worker env request =
      ⟨.text ("Non-Gemini Error for URL: None. Error: " ++ e), 500, []⟩ := by
  unfold api_call_worker
  rw [hg]

/-- Unfolding of `api_call_worker` when `get_json` returns. -/
theorem api_call_worker_ok (env : SysEnv) (request : Request) (rj : Option Json)
    (hg : request.getJson = .ok rj) :
    api_call_worker env request = worker_json env rj := by
  unfold api_call_worker
  rw [hg]

/-- Unfolding of `worker_json` on a truthy body. -/
theorem worker_json_true (env : SysEnv) (doc : Json) (ht : truthy doc = true) :
    worker_json env (some doc) = worker_doc env doc := by
  simp only [worker_json]
  rw [ht]
  rfl

/-- Unfolding of `worker_json` on a falsy body. -/
theorem worker_json_false (env : SysEnv) (doc : Json) (ht : truthy doc = false) :
    worker_json env (some doc) =
      ⟨.text "Error: No URL provided in request body.", 400, []⟩ := by
  simp only [worker_json]
  rw [ht]
  rfl

/-- Unfolding of `worker_doc` when the membership test raises. -/
theorem worker_doc_member_err (env : SysEnv) (doc : Json) (e : String)
    (hc : pyContains "url" doc = .error e) :
    worker_doc env doc =
      ⟨.text ("Non-Gemini Error for URL: None. Error: " ++ e), 500, []⟩ := by
  unfold worker_doc
  rw [hc]

/-- Unfolding of `worker_doc` when the membership test is false. -/
theorem worker_doc_member_false (env : SysEnv) (doc : Json)
    (hc : pyContains "url" doc = .ok false) :
    worker_doc env doc =
      ⟨.text "Error: No URL provided in request body.", 400, []⟩ := by
  unfold worker_doc
  rw [hc]

/-- Unfolding of `worker_doc` when subscripting raises. -/
theorem worker_doc_sub_err (env : SysEnv) (doc : Json) (e : String)
    (hc : pyContains "url" doc = .ok true)
    (hs : pySubscript "url" doc = .error e) :
    worker_doc env doc =
      ⟨.text ("Non-Gemini Error for URL: None. Error: " ++ e), 500, []⟩ := by
  unfold worker_doc
  rw [hc, hs]

/-- Unfolding of `worker_doc` when subscripting returns a value. -/
theorem worker_doc_sub_ok (env : SysEnv) (doc : Json) (v : Json)
    (hc : pyContains "url" doc = .ok true)
    (hs : pySubscript "url" doc = .ok v) :
    worker_doc env doc =
      ⟨.result (call_gemini env v), 200, [Effect.geminiCall v]⟩ := by
  unfold worker_doc
  rw [hc, hs]

/-- A subscript that returns forces the body to be an object whose
entries carry the key. -/
theorem pySubscript_ok_obj (doc v : Json) (hs : pySubscript "url" doc = .ok v) :
    ∃ entries, doc = .obj entries ∧ entries.lookup "url" = some v := by
  cases doc with
  | obj entries =>
      cases hl : entries.lookup "url" with
      | none =>
          simp only [pySubscript, hl] at hs
          exact Except.noConfusion hs
      | some w =>
          simp only [pySubscript, hl] at hs
          cases hs
          exact ⟨entries, rfl, hl⟩
  | null => exact Except.noConfusion hs
  | bool b => exact Except.noConfusion hs
  | num n => exact Except.noConfusion hs
  | str s => exact Except.noConfusion hs
  | arr elems => exact Except.noConfusion hs

/-- Case analysis of `api_call_worker`: an uncaught exception (500, with
`video_url` still `None`), a missing-url 400, or a classify call on the
value extracted from an object body. -/
theorem api_call_worker_cases (env : SysEnv) (request : Request) :
    (∃ e, api_call_worker env request =
        ⟨.text ("Non-Gemini Error for URL: None. Error: " ++ e), 500, []⟩) ∨
    (api_call_worker env request =
        ⟨.text "Error: No URL provided in request body.", 400, []⟩) ∨
    (∃ entries v, request.getJson = .ok (some (.obj entries)) ∧
        entries.lookup "url" = some v ∧
        api_call_worker env request =
          ⟨.result (call_gemini env v), 200, [Effect.geminiCall v]⟩) := by
  cases hg : request.getJson with
  | error e => exact .inl ⟨e, api_call_worker_err env request e hg⟩
  | ok rj =>
    have heq := api_call_worker_ok env request rj hg
    cases rj with
    | none => exact .inr (.inl heq)
    | some doc =>
      cases ht : truthy doc with
      | false => exact .inr (.inl (heq.trans (worker_json_false env doc ht)))
      | true =>
        have heq2 := heq.trans (worker_json_true env doc ht)
        cases hc : pyContains "url" doc with
        | error e => exact .inl ⟨e, heq2.trans (worker_doc_member_err env doc e hc)⟩
        | ok b =>
          cases b with
          | false => exact .inr (.inl (heq2.trans (worker_doc_member_false env doc hc)))
          | true =>
            cases hs : pySubscript "url" doc with
            | error e => exact .inl ⟨e, heq2.trans (worker_doc_sub_err env doc e hc hs)⟩
            | ok v =>
                obtain ⟨entries, hdoc, hl⟩ := pySubscript_ok_obj doc v hs
                subst hdoc
                exact .inr (.inr ⟨entries, v, rfl, hl,
                  heq2.trans (worker_doc_sub_ok env _ v hc hs)⟩)

/-- When the body is an object carrying a `url` entry, the worker calls
`call_gemini` on that value and returns its result with 200. -/
theorem api_call_worker_obj_url (env : SysEnv) (request : Request)
    (entries : List (String × Json)) (v : Json)
    (hjson : request.getJson = .ok (some (.obj entries)))
    (hurl : entries.lookup "url" = some v) :
    api_call_worker env request =
      ⟨.result (call_gemini env v), 200, [Effect.geminiCall v]⟩ := by
  have hne : entries ≠ [] := lookup_ne_nil hurl
  have ht : truthy (.obj entries) = true := by
    cases entries with
    | nil => exact absurd rfl hne
    | cons a l => rfl
  have hc : pyContains "url" (.obj entries) = .ok true := by
    simp only [pyContains]
    rw [hurl]
    rfl
  have hs : pySubscript "url" (.obj entries) = .ok v := by
    simp only [pySubscript]
    rw [hurl]
  exact (api_call_worker_ok env request _ hjson).trans
    ((worker_json_true env _ ht).trans (worker_doc_sub_ok env _ v hc hs))

/-! ## Claim theorems -/

/-- Claim C9: for every url, the inference request built by `call_gemini`
carries exactly the url as media reference, the fixed system instruction,
temperature 0.0, the hard output-token cap 8192, and a structured-output
response schema that is an object with the single required string field
`IAB_Category`. -/
theorem c9_gemini_request_contents (u : Json) :
    buildGeminiRequest u =
      { model_name := "gemini-1.5-pro-002"
      , system_instruction := systemInstructionText
      , media_mime_type := "video/mp4"
      , media_uri := u
      , prompt := "Please classify"
      , temperature := 0
      , max_output_tokens := 8192
      , response_mime_type := "application/json"
      , response_schema :=
          Json.obj [("type", .str "object"),
                    ("properties", .obj [("IAB_Category", .obj [("type", .str "STRING")])]),
                    ("required", .arr [.str "IAB_Category"])] } ∧
    (buildGeminiRequest u).temperature = 0 ∧
    (buildGeminiRequest u).max_output_tokens = 8192 ∧
    (buildGeminiRequest u).media_uri = u := by
  exact ⟨rfl, rfl, rfl, rfl⟩

/-- Claim C10: when loading `queue_config.yaml` raises, `_load_queue_config`
returns the empty dictionary; in that state both `create_queue` and
`create_cloud_task` build the queue path with queue id `None`
(`QUEUE_CONFIG.get("queue_id")`), the module constant `QUEUE_ID` is not
used as a fallback, and the `rate_limits` of the created queue and
`retry_config` default to empty dictionaries. -/
theorem c10_yaml_failure_defaults (e : String) (env : SysEnv) (u : String) :
    load_queue_config (.error e) = emptyQueueConfig ∧
    (load_queue_config (.error e)).queue_id = none ∧
    queue_path env (load_queue_config (.error e)).queue_id =
      ⟨PROJECT_ID env, LOCATION env, none⟩ ∧
    (load_queue_config (.error e)).queue_id ≠ some QUEUE_ID ∧
    (create_cloud_task env (load_queue_config (.error e)) u).1 =
      [Effect.createTask ⟨PROJECT_ID env, LOCATION env, none⟩ u] ∧
    queueRecOf env (load_queue_config (.error e)) =
      ⟨⟨PROJECT_ID env, LOCATION env, none⟩, Json.obj [], Json.obj []⟩ := by
  refine ⟨rfl, rfl, rfl, ?_, rfl, rfl⟩
  intro h
  exact Option.noConfusion h

/-- Claim C6 counterexample: with a queue lookup failing with
`PERMISSION_DENIED`, `create_queue` raises nothing (the failure is
swallowed, not surfaced to the caller), and the intake endpoint still
answers 202 for a valid request. -/
theorem c6_counterexample :
    (create_queue permDeniedEnv sampleCfg).2 = none ∧
    (create_queue permDeniedEnv sampleCfg).1 =
      [Effect.getQueue (queue_path permDeniedEnv sampleCfg.queue_id)] ∧
    (api_endpoint permDeniedEnv sampleCfg validReq).status = 202 := by
  exact ⟨rfl, rfl, by decide⟩

/-- Claim C6 (amended): when the queue lookup fails with any condition
other than not-found, `create_queue` does not attempt creation, and the
failure is logged and swallowed — it is not surfaced to the caller. -/
theorem c6_lookup_failure_swallowed (env : SysEnv) (cfg : QueueConfig) (e : String)
    (hq : env.getQueueRpc (queue_path env cfg.queue_id) = .error e)
    (hnf : strContains "NOT_FOUND" e = false) :
    create_queue env cfg = ([Effect.getQueue (queue_path env cfg.queue_id)], none) := by
  unfold create_queue
  simp [hq, hnf]

/-- Witness for `c6_lookup_failure_swallowed` at a concrete environment. -/
theorem c6_witness :
    create_queue permDeniedEnv sampleCfg =
      ([Effect.getQueue (queue_path permDeniedEnv sampleCfg.queue_id)], none) :=
  c6_lookup_failure_swallowed permDeniedEnv sampleCfg
    "PERMISSION_DENIED: caller lacks permission" rfl (by decide)

/-- Claim C7 counterexample: when the lookup reports not-found and the
creation call then fails with `ALREADY_EXISTS` (a lost creation race),
the exception propagates out of `create_queue` and the intake endpoint
returns 500 — the race is fatal, not treated as success. -/
theorem c7_counterexample :
    (create_queue raceEnv sampleCfg).2 = some "ALREADY_EXISTS: queue exists" ∧
    (api_endpoint raceEnv sampleCfg validReq).status = 500 ∧
    (api_endpoint raceEnv sampleCfg validReq).body =
      "Error: ALREADY_EXISTS: queue exists" := by
  exact ⟨by decide, by decide, by decide⟩

/-- Claim C7 (amended): a creation attempt that fails — including with an
already-exists error from a concurrent creator — raises out of
`create_queue` and is propagated to the caller, not treated as success. -/
theorem c7_create_failure_propagates (env : SysEnv) (cfg : QueueConfig) (e e2 : String)
    (hq : env.getQueueRpc (queue_path env cfg.queue_id) = .error e)
    (hnf : strContains "NOT_FOUND" e = true)
    (hc : env.createQueueRpc (queueRecOf env cfg) = .error e2) :
    (create_queue env cfg).2 = some e2 := by
  unfold create_queue
  simp [hq, hnf, hc]

/-- Witness for `c7_create_failure_propagates` at a concrete environment. -/
theorem c7_witness :
    (create_queue raceEnv sampleCfg).2 = some "ALREADY_EXISTS: queue exists" :=
  c7_create_failure_propagates raceEnv sampleCfg
    "NOT_FOUND: queue does not exist" "ALREADY_EXISTS: queue exists"
    rfl (by decide) rfl

/-- Unfolding of `api_endpoint` when `create_queue` raises. -/
theorem api_endpoint_raise (env : SysEnv) (cfg : QueueConfig) (request : Request)
    (e : String) (hcq : (create_queue env cfg).2 = some e) :
    api_endpoint env cfg request = ⟨"Error: " ++ e, 500, (create_queue env cfg).1⟩ := by
  unfold api_endpoint
  rw [hcq]

/-- Unfolding of `api_endpoint` when `get_json` raises. -/
theorem api_endpoint_json_err (env : SysEnv) (cfg : QueueConfig) (request : Request)
    (e : String) (hcq : (create_queue env cfg).2 = none)
    (hg : request.getJson = .error e) :
    api_endpoint env cfg request = ⟨"Error: " ++ e, 500, (create_queue env cfg).1⟩ := by
  unfold api_endpoint
  rw [hcq, hg]

/-- Unfolding of `api_endpoint` when `get_json` returns. -/
theorem api_endpoint_json_ok (env : SysEnv) (cfg : QueueConfig) (request : Request)
    (rj : Option Json) (hcq : (create_queue env cfg).2 = none)
    (hg : request.getJson = .ok rj) :
    api_endpoint env cfg request = endpoint_body env cfg (create_queue env cfg).1 rj := by
  unfold api_endpoint
  rw [hcq, hg]

/-- Unfolding of `endpoint_body` on a truthy body. -/
theorem endpoint_body_true (env : SysEnv) (cfg : QueueConfig) (eff0 : List Effect)
    (doc : Json) (ht : truthy doc = true) :
    endpoint_body env cfg eff0 (some doc) = endpoint_member env cfg eff0 doc := by
  simp only [endpoint_body]
  rw [ht]
  rfl

/-- Unfolding of `endpoint_body` on a falsy body. -/
theorem endpoint_body_false (env : SysEnv) (cfg : QueueConfig) (eff0 : List Effect)
    (doc : Json) (ht : truthy doc = false) :
    endpoint_body env cfg eff0 (some doc) =
      ⟨"Error: No URL provided in request body.", 400, eff0⟩ := by
  simp only [endpoint_body]
  rw [ht]
  rfl

/-- Unfolding of `endpoint_member` when the membership test raises. -/
theorem endpoint_member_err (env : SysEnv) (cfg : QueueConfig) (eff0 : List Effect)
    (doc : Json) (e : String) (hc : pyContains "url" doc = .error e) :
    endpoint_member env cfg eff0 doc = ⟨"Error: " ++ e, 500, eff0⟩ := by
  unfold endpoint_member
  rw [hc]

/-- Unfolding of `endpoint_member` when the membership test is false. -/
theorem endpoint_member_false (env : SysEnv) (cfg : QueueConfig) (eff0 : List Effect)
    (doc : Json) (hc : pyContains "url" doc = .ok false) :
    endpoint_member env cfg eff0 doc =
      ⟨"Error: No URL provided in request body.", 400, eff0⟩ := by
  unfold endpoint_member
  rw [hc]

/-- Unfolding of `endpoint_member` when subscripting raises. -/
theorem endpoint_member_sub_err (env : SysEnv) (cfg : QueueConfig) (eff0 : List Effect)
    (doc : Json) (e : String) (hc : pyContains "url" doc = .ok true)
    (hs : pySubscript "url" doc = .error e) :
    endpoint_member env cfg eff0 doc = ⟨"Error: " ++ e, 500, eff0⟩ := by
  unfold endpoint_member
  rw [hc, hs]

/-- Unfolding of `endpoint_member` when subscripting returns a value. -/
theorem endpoint_member_sub_ok (env : SysEnv) (cfg : QueueConfig) (eff0 : List Effect)
    (doc : Json) (v : Json) (hc : pyContains "url" doc = .ok true)
    (hs : pySubscript "url" doc = .ok v) :
    endpoint_member env cfg eff0 doc = endpoint_validate env cfg eff0 v := by
  unfold endpoint_member
  rw [hc, hs]

/-- Unfolding of `endpoint_validate` on a wrong-scheme url. -/
theorem endpoint_validate_scheme (env : SysEnv) (cfg : QueueConfig) (eff0 : List Effect)
    (url : String) (hp : pyStartsWith url "gs://" = false) :
    endpoint_validate env cfg eff0 (.str url) =
      ⟨"Error: URL must be a GCS path (start with gs://).", 400, eff0⟩ := by
  simp only [endpoint_validate]
  rw [hp]
  rfl

/-- Unfolding of `endpoint_validate` on a wrong-extension url. -/
theorem endpoint_validate_ext (env : SysEnv) (cfg : QueueConfig) (eff0 : List Effect)
    (url : String) (hp : pyStartsWith url "gs://" = true)
    (he : pyEndsWith url ".mp4" = false) :
    endpoint_validate env cfg eff0 (.str url) =
      ⟨"Error: URL must point to an MP4 video file.", 400, eff0⟩ := by
  simp only [endpoint_validate]
  rw [hp, he]
  rfl

/-- Unfolding of `endpoint_validate` on a url passing both checks. -/
theorem endpoint_validate_pass (env : SysEnv) (cfg : QueueConfig) (eff0 : List Effect)
    (url : String) (hp : pyStartsWith url "gs://" = true)
    (he : pyEndsWith url ".mp4" = true) :
    endpoint_validate env cfg eff0 (.str url) = endpoint_enqueue env cfg eff0 url := by
  simp only [endpoint_validate]
  rw [hp, he]
  rfl

/-- Unfolding of `endpoint_enqueue` on a successful `create_task`. -/
theorem endpoint_enqueue_ok (env : SysEnv) (cfg : QueueConfig) (eff0 : List Effect)
    (url : String) (task_name : String)
    (hct : (create_cloud_task env cfg url).2 = .ok task_name) :
    endpoint_enqueue env cfg eff0 url =
      ⟨"URL queued for processing. Task name: " ++ task_name, 202,
        eff0 ++ (create_cloud_task env cfg url).1⟩ := by
  unfold endpoint_enqueue
  rw [hct]

/-- Unfolding of `endpoint_enqueue` on a raising `create_task`. -/
theorem endpoint_enqueue_err (env : SysEnv) (cfg : QueueConfig) (eff0 : List Effect)
    (url : String) (e : String)
    (hct : (create_cloud_task env cfg url).2 = .error e) :
    endpoint_enqueue env cfg eff0 url =
      ⟨"Error: " ++ e, 500, eff0 ++ (create_cloud_task env cfg url).1⟩ := by
  unfold endpoint_enqueue
  rw [hct]

/-- Case analysis of `api_endpoint`: either no task-creation call was made
and the effects are those of `create_queue` alone, or both URL checks
passed and the task-creation call follows the queue effects, with status
202 or 500. -/
theorem api_endpoint_cases (env : SysEnv) (cfg : QueueConfig) (request : Request) :
    ((api_endpoint env cfg request).effects = (create_queue env cfg).1) ∨
    (∃ u, pyStartsWith u "gs://" = true ∧ pyEndsWith u ".mp4" = true ∧
      (api_endpoint env cfg request).effects =
        (create_queue env cfg).1 ++ [Effect.createTask (queue_path env cfg.queue_id) u] ∧
      ((api_endpoint env cfg request).status = 202 ∨
       (api_endpoint env cfg request).status = 500)) := by
  cases hcq : (create_queue env cfg).2 with
  | some e =>
      rw [api_endpoint_raise env cfg request e hcq]
      exact .inl rfl
  | none =>
    cases hg : request.getJson with
    | error e =>
        rw [api_endpoint_json_err env cfg request e hcq hg]
        exact .inl rfl
    | ok rj =>
      rw [api_endpoint_json_ok env cfg request rj hcq hg]
      cases rj with
      | none => exact .inl rfl
      | some doc =>
        cases ht : truthy doc with
        | false =>
            rw [endpoint_body_false env cfg _ doc ht]
            exact .inl rfl
        | true =>
          rw [endpoint_body_true env cfg _ doc ht]
          cases hc : pyContains "url" doc with
          | error e =>
              rw [endpoint_member_err env cfg _ doc e hc]
              exact .inl rfl
          | ok b =>
            cases b with
            | false =>
                rw [endpoint_member_false env cfg _ doc hc]
                exact .inl rfl
            | true =>
              cases hs : pySubscript "url" doc with
              | error e =>
                  rw [endpoint_member_sub_err env cfg _ doc e hc hs]
                  exact .inl rfl
              | ok v =>
                rw [endpoint_member_sub_ok env cfg _ doc v hc hs]
                cases v with
                | str url =>
                  cases hp : pyStartsWith url "gs://" with
                  | false =>
                      rw [endpoint_validate_scheme env cfg _ url hp]
                      exact .inl rfl
                  | true =>
                    cases he : pyEndsWith url ".mp4" with
                    | false =>
                        rw [endpoint_validate_ext env cfg _ url hp he]
                        exact .inl rfl
                    | true =>
                      rw [endpoint_validate_pass env cfg _ url hp he]
                      cases hct : (create_cloud_task env cfg url).2 with
                      | ok task_name =>
                          rw [endpoint_enqueue_ok env cfg _ url task_name hct]
                          exact .inr ⟨url, hp, he, rfl, .inl rfl⟩
                      | error e =>
                          rw [endpoint_enqueue_err env cfg _ url e hct]
                          exact .inr ⟨url, hp, he, rfl, .inr rfl⟩
                | null => exact .inl rfl
                | bool b2 => exact .inl rfl
                | num n => exact .inl rfl
                | arr elems => exact .inl rfl
                | obj entries2 => exact .inl rfl

/-- When the queue step does not raise and the body is an object carrying
a `url` entry, the endpoint proceeds to validation of that value. -/
theorem api_endpoint_obj_url (env : SysEnv) (cfg : QueueConfig) (request : Request)
    (entries : List (String × Json)) (v : Json)
    (hcq : (create_queue env cfg).2 = none)
    (hjson : request.getJson = .ok (some (.obj entries)))
    (hurl : entries.lookup "url" = some v) :
    api_endpoint env cfg request =
      endpoint_validate env cfg (create_queue env cfg).1 v := by
  have hne : entries ≠ [] := lookup_ne_nil hurl
  have ht : truthy (.obj entries) = true := by
    cases entries with
    | nil => exact absurd rfl hne
    | cons a l => rfl
  have hc : pyContains "url" (.obj entries) = .ok true := by
    simp only [pyContains]
    rw [hurl]
    rfl
  have hs : pySubscript "url" (.obj entries) = .ok v := by
    simp only [pySubscript]
    rw [hurl]
  rw [api_endpoint_json_ok env cfg request _ hcq hjson,
      endpoint_body_true env cfg _ _ ht,
      endpoint_member_sub_ok env cfg _ _ v hc hs]

/-- Claim C2: for every request to the intake endpoint, a task-creation
call is made only for a url that passed both validation checks — invalid
URLs never enter the queue. -/
theorem c2_task_only_for_valid_url (env : SysEnv) (cfg : QueueConfig)
    (request : Request) (p : QueuePath) (u : String)
    (h : Effect.createTask p u ∈ (api_endpoint env cfg request).effects) :
    pyStartsWith u "gs://" = true ∧ pyEndsWith u ".mp4" = true := by
  rcases api_endpoint_cases env cfg request with heff | ⟨u2, hp, he, heff, _⟩
  · rw [heff] at h
    exact absurd h (createTask_not_in_create_queue env cfg p u)
  · rw [heff] at h
    rcases List.mem_append.mp h with h1 | h1
    · exact absurd h1 (createTask_not_in_create_queue env cfg p u)
    · have h2 := List.mem_singleton.mp h1
      injection h2 with h3 h4
      subst h4
      exact ⟨hp, he⟩

/-- Witness for `c2_task_only_for_valid_url` at a concrete run. -/
theorem c2_witness :
    pyStartsWith "gs://bucket/ad.mp4" "gs://" = true ∧
    pyEndsWith "gs://bucket/ad.mp4" ".mp4" = true :=
  c2_task_only_for_valid_url okEnv sampleCfg validReq
    (queue_path okEnv sampleCfg.queue_id) "gs://bucket/ad.mp4"
    (List.Mem.tail _ (List.Mem.head _))

/-- Claim C3: the validator applies its rules in order — a url not
starting with `gs://` fails with the InvalidScheme message and 400; a url
starting with `gs://` but not ending with `.mp4` fails with the
InvalidExtension message and 400; a url passing both is subjected to no
further syntactic check: the task-creation call is made with it. -/
theorem c3_validator_rules (env : SysEnv) (cfg : QueueConfig) (request : Request)
    (entries : List (String × Json)) (u : String)
    (hcq : (create_queue env cfg).2 = none)
    (hjson : request.getJson = .ok (some (.obj entries)))
    (hurl : entries.lookup "url" = some (.str u)) :
    (pyStartsWith u "gs://" = false →
      api_endpoint env cfg request =
        ⟨"Error: URL must be a GCS path (start with gs://).", 400,
          (create_queue env cfg).1⟩) ∧
    (pyStartsWith u "gs://" = true → pyEndsWith u ".mp4" = false →
      api_endpoint env cfg request =
        ⟨"Error: URL must point to an MP4 video file.", 400,
          (create_queue env cfg).1⟩) ∧
    (pyStartsWith u "gs://" = true → pyEndsWith u ".mp4" = true →
      Effect.createTask (queue_path env cfg.queue_id) u ∈
        (api_endpoint env cfg request).effects) := by
  have hv := api_endpoint_obj_url env cfg request entries (.str u) hcq hjson hurl
  refine ⟨?_, ?_, ?_⟩
  · intro hp
    rw [hv, endpoint_validate_scheme env cfg _ u hp]
  · intro hp he
    rw [hv, endpoint_validate_ext env cfg _ u hp he]
  · intro hp he
    rw [hv, endpoint_validate_pass env cfg _ u hp he]
    cases hct : (create_cloud_task env cfg u).2 with
    | ok task_name =>
        rw [endpoint_enqueue_ok env cfg _ u task_name hct]
        exact List.mem_append_right _ (List.Mem.head _)
    | error e =>
        rw [endpoint_enqueue_err env cfg _ u e hct]
        exact List.mem_append_right _ (List.Mem.head _)

/-- Witness for `c3_validator_rules` at a concrete run. -/
theorem c3_witness :
    (pyStartsWith "gs://bucket/ad.mp4" "gs://" = false →
      api_endpoint okEnv sampleCfg validReq =
        ⟨"Error: URL must be a GCS path (start with gs://).", 400,
          (create_queue okEnv sampleCfg).1⟩) ∧
    (pyStartsWith "gs://bucket/ad.mp4" "gs://" = true →
      pyEndsWith "gs://bucket/ad.mp4" ".mp4" = false →
      api_endpoint okEnv sampleCfg validReq =
        ⟨"Error: URL must point to an MP4 video file.", 400,
          (create_queue okEnv sampleCfg).1⟩) ∧
    (pyStartsWith "gs://bucket/ad.mp4" "gs://" = true →
      pyEndsWith "gs://bucket/ad.mp4" ".mp4" = true →
      Effect.createTask (queue_path okEnv sampleCfg.queue_id) "gs://bucket/ad.mp4" ∈
        (api_endpoint okEnv sampleCfg validReq).effects) :=
  c3_validator_rules okEnv sampleCfg validReq [("url", .str "gs://bucket/ad.mp4")]
    "gs://bucket/ad.mp4" rfl rfl rfl

/-- Claim C8 counterexample: a request failing validation with
InvalidScheme (status 400) for which a queue lookup has nevertheless been
performed — the queue-ensure call precedes validation. -/
theorem c8_counterexample :
    (api_endpoint okEnv sampleCfg invalidSchemeReq).status = 400 ∧
    (api_endpoint okEnv sampleCfg invalidSchemeReq).body =
      "Error: URL must be a GCS path (start with gs://)." ∧
    (api_endpoint okEnv sampleCfg invalidSchemeReq).effects =
      [Effect.getQueue (queue_path okEnv sampleCfg.queue_id)] := by
  exact ⟨rfl, rfl, rfl⟩

/-- Claim C8 (amended): the queue-ensure call precedes validation — every
request, including every one failing validation, performs the queue lookup
first; a request answered 400 creates no task, though the queue lookup
(and possibly creation) has already happened. -/
theorem c8_queue_before_validation (env : SysEnv) (cfg : QueueConfig)
    (request : Request) :
    (∃ rest, (api_endpoint env cfg request).effects =
        Effect.getQueue (queue_path env cfg.queue_id) :: rest) ∧
    ((api_endpoint env cfg request).status = 400 →
      ∀ p u, Effect.createTask p u ∉ (api_endpoint env cfg request).effects) := by
  obtain ⟨rest, hshape⟩ := create_queue_effects_shape env cfg
  constructor
  · rcases api_endpoint_cases env cfg request with heff | ⟨u2, hp, he, heff, _⟩
    · exact ⟨rest, by rw [heff, hshape]⟩
    · refine ⟨rest ++ [Effect.createTask (queue_path env cfg.queue_id) u2], ?_⟩
      rw [heff, hshape]
      rfl
  · intro h400 p u hmem
    rcases api_endpoint_cases env cfg request with heff | ⟨u2, hp, he, heff, hst⟩
    · rw [heff] at hmem
      exact createTask_not_in_create_queue env cfg p u hmem
    · rcases hst with h202 | h500
      · rw [h400] at h202
        exact absurd h202 (by decide)
      · rw [h400] at h500
        exact absurd h500 (by decide)

/-- Claim C1: for every request body with a `url` field whose value starts
with `gs://` and ends with `.mp4`, the worker endpoint returns status 200,
and its body is either the structured response of the Classifier or an error
string that contains the original url — `call_gemini` never raises past
its boundary. -/
theorem c1_worker_valid_url (env : SysEnv) (request : Request)
    (entries : List (String × Json)) (u : String)
    (hjson : request.getJson = .ok (some (.obj entries)))
    (hurl : entries.lookup "url" = some (.str u))
    (hpre : pyStartsWith u "gs://" = true)
    (hsuf : pyEndsWith u ".mp4" = true) :
    (api_call_worker env request).status = 200 ∧
    ((∃ r, (api_call_worker env request).body = .result (.response r)) ∨
     (∃ s a b, (api_call_worker env request).body = .result (.errorString s) ∧
        s = a ++ u ++ b)) := by
  have hw := api_call_worker_obj_url env request entries (.str u) hjson hurl
  rw [hw]
  refine ⟨rfl, ?_⟩
  unfold call_gemini
  cases hgen : env.generateRpc (buildGeminiRequest (.str u)) with
  | ok r => exact .inl ⟨r, rfl⟩
  | error e =>
      refine .inr ⟨"Gemini call failed for URL: " ++ u ++ ". Error: " ++ e,
        "Gemini call failed for URL: ", ". Error: " ++ e, rfl, ?_⟩
      exact String.append_assoc ("Gemini call failed for URL: " ++ u) ". Error: " e

/-- Witness for `c1_worker_valid_url` at a concrete request. -/
theorem c1_witness :
    (api_call_worker okEnv validReq).status = 200 ∧
    ((∃ r, (api_call_worker okEnv validReq).body = .result (.response r)) ∨
     (∃ s a b, (api_call_worker okEnv validReq).body = .result (.errorString s) ∧
        s = a ++ "gs://bucket/ad.mp4" ++ b)) :=
  c1_worker_valid_url okEnv validReq [("url", .str "gs://bucket/ad.mp4")]
    "gs://bucket/ad.mp4" rfl rfl (by decide) (by decide)

/-- Claim C4 counterexample: for the body `["url"]` — absent a JSON
object, hence in the domain of the claim — the worker returns 500, not 400:
the Python membership test `"url" in ["url"]` succeeds and the subsequent
subscript raises a TypeError caught by the 500 handler.  `call_gemini` is
still never invoked. -/
theorem c4_counterexample :
    (api_call_worker okEnv arrayBodyReq).status = 500 ∧
    ¬((api_call_worker okEnv arrayBodyReq).status = 400) ∧
    (api_call_worker okEnv arrayBodyReq).effects = [] := by
  exact ⟨rfl, by decide, rfl⟩

/-- Claim C4 (amended): for every request whose body is absent, not a JSON
object, or lacking the `url` key, the worker endpoint returns status 400
or 500 — 400 unless extraction raises, in which case 500 — and
`call_gemini` is never invoked (no classify effect is recorded). -/
theorem c4_malformed_body (env : SysEnv) (request : Request)
    (h : ∀ entries v, request.getJson = .ok (some (.obj entries)) →
          entries.lookup "url" = some v → False) :
    ((api_call_worker env request).status = 400 ∨
     (api_call_worker env request).status = 500) ∧
    (api_call_worker env request).effects = [] := by
  rcases api_call_worker_cases env request with ⟨e, hw⟩ | hw | ⟨entries, v, hg, hl, hw⟩
  · rw [hw]
    exact ⟨.inr rfl, rfl⟩
  · rw [hw]
    exact ⟨.inl rfl, rfl⟩
  · exact (h entries v hg hl).elim

/-- Witness for `c4_malformed_body` at a concrete request. -/
theorem c4_witness :
    ((api_call_worker okEnv arrayBodyReq).status = 400 ∨
     (api_call_worker okEnv arrayBodyReq).status = 500) ∧
    (api_call_worker okEnv arrayBodyReq).effects = [] :=
  c4_malformed_body okEnv arrayBodyReq
    (by
      intro entries v hg hl
      simp [arrayBodyReq] at hg)

/-- Claim C5 counterexample: with the inference service unreachable and a
valid url, the worker returns the Classifier failure with status 200, not
500 — a Classifier failure is not converted to a 500 response. -/
theorem c5_counterexample :
    (api_call_worker geminiDownEnv validReq).status = 200 ∧
    ¬((api_call_worker geminiDownEnv validReq).status = 500) ∧
    (api_call_worker geminiDownEnv validReq).body =
      .result (.errorString
        "Gemini call failed for URL: gs://bucket/ad.mp4. Error: service unreachable") := by
  refine ⟨rfl, by decide, ?_⟩
  show WorkerBody.result (call_gemini geminiDownEnv (.str "gs://bucket/ad.mp4")) = _
  unfold call_gemini
  show WorkerBody.result (.errorString ("Gemini call failed for URL: " ++
    pyStr (.str "gs://bucket/ad.mp4") ++ ". Error: " ++ "service unreachable")) = _
  have h : "Gemini call failed for URL: " ++ "gs://bucket/ad.mp4" ++ ". Error: " ++
      "service unreachable" =
      "Gemini call failed for URL: gs://bucket/ad.mp4. Error: service unreachable" := by
    decide
  rw [pyStr, h]

/-- Claim C5 (amended): every exception raised inside `api_call_worker`
itself is caught and converted to a message echoing the current URL value
(always still `None`) and the error, with status 500; Classifier failures
do not raise — `call_gemini` converts them to an error string embedding
the url, which the worker returns with status 200. -/
theorem c5_worker_exceptions (env : SysEnv) (request : Request) :
    ((api_call_worker env request).status = 500 →
      ∃ e, (api_call_worker env request).body =
        .text ("Non-Gemini Error for URL: None. Error: " ++ e)) ∧
    (∀ entries u e2, request.getJson = .ok (some (.obj entries)) →
      entries.lookup "url" = some (.str u) →
      env.generateRpc (buildGeminiRequest (.str u)) = .error e2 →
      (api_call_worker env request).status = 200 ∧
      (api_call_worker env request).body =
        .result (.errorString
          ("Gemini call failed for URL: " ++ u ++ ". Error: " ++ e2))) := by
  constructor
  · intro h500
    rcases api_call_worker_cases env request with ⟨e, hw⟩ | hw | ⟨entries, v, hg, hl, hw⟩
    · rw [hw]
      exact ⟨e, rfl⟩
    · rw [hw] at h500
      simp at h500
    · rw [hw] at h500
      simp at h500
  · intro entries u e2 hjson hurl hgen
    have hw := api_call_worker_obj_url env request entries (.str u) hjson hurl
    rw [hw]
    refine ⟨rfl, ?_⟩
    unfold call_gemini
    rw [hgen]
    rfl

/-- Witness for `c5_worker_exceptions` at a concrete environment. -/
theorem c5_witness :
    ((api_call_worker geminiDownEnv validReq).status = 500 →
      ∃ e, (api_call_worker geminiDownEnv validReq).body =
        .text ("Non-Gemini Error for URL: None. Error: " ++ e)) ∧
    (∀ entries u e2, validReq.getJson = .ok (some (.obj entries)) →
      entries.lookup "url" = some (.str u) →
      geminiDownEnv.generateRpc (buildGeminiRequest (.str u)) = .error e2 →
      (api_call_worker geminiDownEnv validReq).status = 200 ∧
      (api_call_worker geminiDownEnv validReq).body =
        .result (.errorString
          ("Gemini call failed for URL: " ++ u ++ ". Error: " ++ e2))) :=
  c5_worker_exceptions geminiDownEnv validReq

end GeminiApi
